import Mathlib

/-!
Shallow embedding of the bookmark-organiser pipeline
(`src/bookmark_processor`): the data model (`models.py`), the liveness
fallback chain and per-bookmark enrichment flow (`main.py`), the content
extraction and tag linting tasks (`tasks/processing.py`), the headless
browser check (`tasks/liveness.py`), and persistence (`tasks/io.py`).

External collaborators (httpx network calls, the playwright browser, the
LLM summarizer/tag-suggester) are modelled as oracle values passed in as
parameters; everything else is translated function by function from the
Python source.
-/

namespace BookmarkOrganiser

/-- The method literals of `LivenessResult.method` in `models.py`:
`Literal["GET", "HEADLESS", "NONE", "ERROR"]`. -/
inductive Method where
  | GET
  | HEADLESS
  | NONE
  | ERROR
deriving DecidableEq, Repr

/-- The dict `{"final_url": ..., "content": ..., "status_code": ...}`
returned on success by `attempt_get_request` and `attempt_headless_browser`
in `tasks/liveness.py`.  `status_code` is optional because the headless
branch stores `None` there when the page had no navigation response and no
content. -/
structure FetchResult where
  final_url : String
  content : String
  status_code : Option Int
deriving DecidableEq, Repr

/-- `LivenessResult` from `models.py`. -/
structure LivenessResult where
  url : String
  is_live : Bool
  status_code : Option Int
  method : Method
  final_url : Option String
  content : Option String
deriving DecidableEq, Repr

/-- `Bookmark` from `models.py`: the nine declared fields.  Pydantic's
default `extra` policy is `ignore`, so the model holds exactly these
fields and nothing else. -/
structure Bookmark where
  href : String
  description : String
  extended : String
  meta : String
  hash : String
  time : String
  shared : String
  toread : String
  tags : List String
deriving DecidableEq, Repr

/-- `_perform_get_check` from `main.py`: wraps the `attempt_get_request`
collaborator (its outcome passed as the oracle value `get_result`; an
exception raised by the collaborator is normalized by the `except` block to
the same `None` outcome).  On a present result it builds a live
`LivenessResult` with `method="GET"`. -/
def perform_get_check (url : String) (get_result : Option FetchResult) :
    Option LivenessResult :=
  match get_result with
  | some r =>
      some { url := url, is_live := true, status_code := r.status_code,
             method := Method.GET, final_url := some r.final_url,
             content := some r.content }
  | none => none

/-- `_perform_headless_check` from `main.py`: same shape as
`_perform_get_check` but for the `attempt_headless_browser` collaborator,
building `method="HEADLESS"`. -/
def perform_headless_check (url : String) (headless_result : Option FetchResult) :
    Option LivenessResult :=
  match headless_result with
  | some r =>
      some { url := url, is_live := true, status_code := r.status_code,
             method := Method.HEADLESS, final_url := some r.final_url,
             content := some r.content }
  | none => none

/-- `liveness_flow` from `main.py`: GET first, headless browser only on GET
absence, dead outcome when both are absent.  The oracle values `get_result`
and `headless_result` stand for the two collaborators' outcomes; the second
component of the pair counts how many times the headless-browser
collaborator is invoked on the taken control path (0 when the flow returns
before reaching `_perform_headless_check`, 1 otherwise). -/
def liveness_flow (url : String) (get_result headless_result : Option FetchResult) :
    LivenessResult × Nat :=
  match perform_get_check url get_result with
  | some r => (r, 0)
  | none =>
      match perform_headless_check url headless_result with
      | some r => (r, 1)
      | none =>
          ({ url := url, is_live := false, status_code := none,
             method := Method.NONE, final_url := none, content := none }, 1)

/-- The observable state of one playwright navigation in
`attempt_headless_browser` (`tasks/liveness.py`): the navigation response's
status (if `page.goto` returned a response object), the page content, and
the page's final URL.  A raised exception anywhere in the `try` block is
modelled by passing `none` for the whole state. -/
structure PageState where
  response : Option Int
  content : String
  final_url : String
deriving DecidableEq, Repr

/-- `attempt_headless_browser` from `tasks/liveness.py`.  With a response:
status in [400, 600) is failure (`None`), otherwise success with that
status.  Without a response: success, with status 200 when the content is
non-empty (Python truthiness of `content`) and status `None` otherwise; the
dict is returned in both no-response cases.  Any exception yields `None`. -/
def attempt_headless_browser (nav : Option PageState) : Option FetchResult :=
  match nav with
  | none => none
  | some st =>
      match st.response with
      | some status =>
          if 400 ≤ status ∧ status < 600 then none
          else some { final_url := st.final_url, content := st.content,
                      status_code := some status }
      | none =>
          some { final_url := st.final_url, content := st.content,
                 status_code := if st.content ≠ "" then some 200 else none }

/-- `lint_tags` from `tasks/processing.py`: with a falsy (empty) blessed
set the input list is returned unchanged; otherwise a fresh `linted_tags`
list is built by the loop, keeping exactly the tags that are members of the
blessed set. -/
def lint_tags (tags : List String) (blessed_tags : List String) : List String :=
  if blessed_tags.isEmpty then tags
  else
    tags.foldl
      (fun linted_tags tag =>
        if tag ∈ blessed_tags then linted_tags ++ [tag] else linted_tags) []

/-- The character groups of a character list, cut at whitespace: a
whitespace character opens a new (initially empty) group, any other
character is prepended to the current group. -/
def ws_fields : List Char → List (List Char)
  | [] => []
  | c :: cs =>
      let acc := ws_fields cs
      if c.isWhitespace then [] :: acc
      else
        match acc with
        | [] => [[c]]
        | w :: ws => (c :: w) :: ws

/-- Python's `str.split()` with no argument, used by the `split_tags`
validator in `models.py`: the maximal runs of non-whitespace characters, in
order. -/
def py_whitespace_split (s : String) : List String :=
  ((ws_fields s.data).filter (fun w => w ≠ [])).map (fun w => String.mk w)

/-- Python's `str.strip()` (also BeautifulSoup's `strip=True` on text
fragments): drop whitespace from both ends. -/
def py_strip (s : String) : String :=
  String.mk (((s.data.dropWhile Char.isWhitespace).reverse.dropWhile
    Char.isWhitespace).reverse)

/-- Lexicographic code-point comparison of two strings, Python's `<=` on
`str`. -/
def py_str_le (a b : String) : Bool :=
  let rec go : List Char → List Char → Bool
    | [], _ => true
    | _ :: _, [] => false
    | c :: cs, d :: ds =>
        if c.toNat < d.toNat then true
        else if d.toNat < c.toNat then false
        else go cs ds
  go a.data b.data

/-- Insertion into a list sorted by `py_str_le`. -/
def py_insert (x : String) : List String → List String
  | [] => [x]
  | y :: ys => if py_str_le x y then x :: y :: ys else y :: py_insert x ys

/-- Python's `sorted` on a list of strings (insertion sort; on the
duplicate-free lists it is applied to here, any comparison sort returns the
same list). -/
def py_sort : List String → List String
  | [] => []
  | x :: xs => py_insert x (py_sort xs)

/-- Python's `sorted(list(set(xs)))` over strings, used by
`_suggest_and_add_new_tags` in `main.py`: the distinct elements in
lexicographic order. -/
def py_sorted_set (xs : List String) : List String :=
  py_sort xs.dedup

/-- `_summarize_and_update_extended` from `main.py`: when a truthy text
source exists and `extended` is falsy (empty), set `extended` to the
summarizer collaborator's output (the collaborator passed as the function
`summarize_content`); otherwise leave the bookmark unchanged. -/
def summarize_and_update_extended (bookmark : Bookmark) (text_source : Option String)
    (summarize_content : String → String) : Bookmark :=
  match text_source with
  | some t =>
      if t ≠ "" ∧ bookmark.extended = "" then
        { bookmark with extended := summarize_content t }
      else bookmark
  | none => bookmark

/-- `_suggest_and_add_new_tags` from `main.py`: when a truthy text source
exists, ask the tag-suggester collaborator (passed as `suggest_tags`) for
new tags, union them with the existing tags as a set and store the sorted
result; otherwise leave the bookmark unchanged. -/
def suggest_and_add_new_tags (bookmark : Bookmark) (text_source : Option String)
    (suggest_tags : String → List String) : Bookmark :=
  match text_source with
  | some t =>
      if t ≠ "" then
        { bookmark with tags := py_sorted_set (bookmark.tags ++ suggest_tags t) }
      else bookmark
  | none => bookmark

/-- `_lint_and_filter_tags` from `main.py`: replace the bookmark's tags by
`lint_tags` of them. -/
def lint_and_filter_tags (bookmark : Bookmark) (blessed_tags_set : List String) :
    Bookmark :=
  { bookmark with tags := lint_tags bookmark.tags blessed_tags_set }

/-- `process_bookmark_flow` from `main.py`, with the two network
collaborators' outcomes passed as oracles.  As in the source: resolve
liveness; if `final_url` is truthy (non-empty) and differs from `href`,
update `href` and append the `"data:redirected"` tag with `list.append`; if
not live, append `"data:offline"` with `list.append` and return.  The
content-processing and linting steps (`_get_and_extract_content_source`,
`_summarize_and_update_extended`, `_suggest_and_add_new_tags`,
`_lint_and_filter_tags`) are commented out in the source, so on every path
nothing else is done before returning; `blessed_tags_set` is accepted but
never read. -/
def process_bookmark_flow (bookmark : Bookmark)
    (get_result headless_result : Option FetchResult)
    (blessed_tags_set : List String) : Bookmark :=
  let _ := blessed_tags_set
  let liveness_result := (liveness_flow bookmark.href get_result headless_result).1
  let b1 :=
    match liveness_result.final_url with
    | some fu =>
        if fu ≠ "" ∧ fu ≠ bookmark.href then
          { bookmark with href := fu, tags := bookmark.tags ++ ["data:redirected"] }
        else bookmark
    | none => bookmark
  if liveness_result.is_live then b1
  else { b1 with tags := b1.tags ++ ["data:offline"] }

/-- A node of the markup tree handed to `extract_main_content` by the
external HTML parser (BeautifulSoup over lxml in `tasks/processing.py`): a
text fragment or an element with a tag name and children. -/
inductive Node where
  | text (s : String)
  | elem (tag : String) (children : List Node)

/-- The tag names decomposed at the start of `extract_main_content`:
`soup(["script", "style", "header", "footer", "nav"])`. -/
def blocked_tags : List String := ["script", "style", "header", "footer", "nav"]

mutual

/-- `Element.decompose` applied to every blocked element, on one node:
`none` when the node itself is a blocked element, otherwise the node with
blocked descendants removed. -/
def node_decompose : Node → Option Node
  | Node.text s => some (Node.text s)
  | Node.elem t cs =>
      if t ∈ blocked_tags then none
      else some (Node.elem t (forest_decompose cs))

/-- Blocked-element removal over a list of sibling nodes. -/
def forest_decompose : List Node → List Node
  | [] => []
  | n :: ns =>
      match node_decompose n with
      | some m => m :: forest_decompose ns
      | none => forest_decompose ns

end

mutual

/-- `soup.find(tag)` restricted to one subtree: the first element with the
given tag name in document (pre-order) order. -/
def node_find (tag : String) : Node → Option Node
  | Node.text _ => none
  | Node.elem t cs =>
      if t = tag then some (Node.elem t cs) else forest_find tag cs

/-- `soup.find(tag)` over a list of sibling subtrees, in document order. -/
def forest_find (tag : String) : List Node → Option Node
  | [] => none
  | n :: ns =>
      match node_find tag n with
      | some m => some m
      | none => forest_find tag ns

end

mutual

/-- The text fragments of one subtree, in document order. -/
def node_texts : Node → List String
  | Node.text s => [s]
  | Node.elem _ cs => forest_texts cs

/-- The text fragments of a list of sibling subtrees. -/
def forest_texts : List Node → List String
  | [] => []
  | n :: ns => node_texts n ++ forest_texts ns

end

/-- `get_text(separator=" ", strip=True)` on one node: each text fragment
stripped, fragments that become empty dropped, the rest joined with single
spaces. -/
def get_text (n : Node) : String :=
  String.intercalate " " (((node_texts n).map py_strip).filter (fun s => s ≠ ""))

/-- `extract_main_content` from `tasks/processing.py`, on the parsed
document (a forest of root nodes): decompose the blocked elements, then
return the text of the first `article` element if any, else of the first
`main` element, else of the `body`, else the empty string. -/
def extract_main_content (document : List Node) : String :=
  let soup := forest_decompose document
  match forest_find "article" soup with
  | some article => get_text article
  | none =>
      match forest_find "main" soup with
      | some main_content => get_text main_content
      | none =>
          match forest_find "body" soup with
          | some body => get_text body
          | none => ""

/-- The wire shape of the `tags` value in a persisted record handed to
`Bookmark.model_validate`: either a single string or a list of strings. -/
inductive TagsValue where
  | str (s : String)
  | strList (l : List String)
deriving DecidableEq, Repr

/-- One record of the input JSON array read by `load_bookmarks`
(`tasks/io.py`): the seven required string fields of the `Bookmark` model,
the optional `extended` (pydantic default `""`), the optional `tags`
(`none` models both a JSON `null` and an absent key — the `split_tags`
validator maps `None` to `[]` and the field default is also `[]`), and the
remaining key/value pairs of the JSON object as `extra`. -/
structure InputRecord where
  href : String
  description : String
  meta : String
  hash : String
  time : String
  shared : String
  toread : String
  extended : Option String
  tags : Option TagsValue
  extra : List (String × String)
deriving DecidableEq, Repr

/-- The `split_tags` field validator of `Bookmark` in `models.py`
(`mode="before"`): `None` (or an absent key, via the field default) gives
`[]`, a string is split on whitespace, a list passes through. -/
def split_tags : Option TagsValue → List String
  | none => []
  | some (TagsValue.str s) => py_whitespace_split s
  | some (TagsValue.strList l) => l

/-- `Bookmark.model_validate` on one input record: the declared fields are
read (with `extended` defaulting to `""` and `tags` through the
`split_tags` validator); keys outside the model are ignored — pydantic's
default `extra` policy — so `extra` does not reach the `Bookmark`. -/
def model_validate (rec : InputRecord) : Bookmark :=
  { href := rec.href, description := rec.description,
    extended := rec.extended.getD "", meta := rec.meta, hash := rec.hash,
    time := rec.time, shared := rec.shared, toread := rec.toread,
    tags := split_tags rec.tags }

/-- One record of the output JSON array written by `save_results`
(`tasks/io.py`): the nine fields of `fields_to_include`, with `tags`
space-joined into a string.  `extra` mirrors `InputRecord.extra` so that
input and output objects can be compared key for key; `save_results` dumps
`bookmark.model_dump(include=fields_to_include)`, which never contains any
other key. -/
structure OutputRecord where
  href : String
  description : String
  extended : String
  meta : String
  hash : String
  time : String
  shared : String
  toread : String
  tags : String
  extra : List (String × String)
deriving DecidableEq, Repr

/-- `save_results` from `tasks/io.py`, restricted to one bookmark: dump the
nine included fields and replace the tags list by its space-joined
string. -/
def save_result (bookmark : Bookmark) : OutputRecord :=
  { href := bookmark.href, description := bookmark.description,
    extended := bookmark.extended, meta := bookmark.meta,
    hash := bookmark.hash, time := bookmark.time, shared := bookmark.shared,
    toread := bookmark.toread, tags := String.intercalate " " bookmark.tags,
    extra := [] }

/-- One record's end-to-end path through `process_all_bookmarks_flow`
(`main.py`): validate the loaded JSON object into a `Bookmark`, enrich it
with `process_bookmark_flow`, save it with `save_results`. -/
def process_record (rec : InputRecord)
    (get_result headless_result : Option FetchResult)
    (blessed_tags_set : List String) : OutputRecord :=
  save_result
    (process_bookmark_flow (model_validate rec) get_result headless_result
      blessed_tags_set)

/-- A bookmark fixture: the given `href` and `tags`, empty `extended`,
fixed values for the fields the flow never touches. -/
def sample_bookmark (href : String) (tags : List String) : Bookmark :=
  { href := href, description := "d", extended := "", meta := "m",
    hash := "h", time := "t", shared := "yes", toread := "no", tags := tags }

/-- A markup fixture containing a `script` element, a `main` element and an
`article` element (the `article` after the `main` in document order, with
different text). -/
def sample_document : List Node :=
  [Node.elem "html"
    [Node.elem "body"
      [Node.elem "script" [Node.text "var x = 1;"],
       Node.elem "main" [Node.text "M"],
       Node.elem "article" [Node.text " A ", Node.elem "p" [Node.text "B"]]]]]

/-- An input record fixture carrying an opaque metadata key
(`"archived"`) outside the `Bookmark` model. -/
def sample_record : InputRecord :=
  { href := "http://example.com/page1", description := "Example Page One",
    meta := "m1", hash := "h1", time := "2023-01-01T10:00:00Z",
    shared := "yes", toread := "no", extended := some "",
    tags := some (TagsValue.str "tech programming"),
    extra := [("archived", "yes")] }

/-! Evaluation lemmas for `process_bookmark_flow`, one per shape of the
liveness outcome. -/

theorem process_bookmark_flow_get_eq (b : Bookmark) (r : FetchResult)
    (headless_result : Option FetchResult) (blessed : List String) :
    process_bookmark_flow b (some r) headless_result blessed =
      if r.final_url ≠ "" ∧ r.final_url ≠ b.href then
        { b with href := r.final_url, tags := b.tags ++ ["data:redirected"] }
      else b := rfl

theorem process_bookmark_flow_headless_eq (b : Bookmark) (r : FetchResult)
    (blessed : List String) :
    process_bookmark_flow b none (some r) blessed =
      if r.final_url ≠ "" ∧ r.final_url ≠ b.href then
        { b with href := r.final_url, tags := b.tags ++ ["data:redirected"] }
      else b := rfl

theorem process_bookmark_flow_dead_eq (b : Bookmark) (blessed : List String) :
    process_bookmark_flow b none none blessed =
      { b with tags := b.tags ++ ["data:offline"] } := rfl

/-- The fields of a bookmark other than `href` and `tags` (in particular
`extended`) are never written by `process_bookmark_flow`. -/
theorem process_bookmark_flow_frame (b : Bookmark)
    (get_result headless_result : Option FetchResult) (blessed : List String) :
    (process_bookmark_flow b get_result headless_result blessed).description
        = b.description
    ∧ (process_bookmark_flow b get_result headless_result blessed).extended
        = b.extended
    ∧ (process_bookmark_flow b get_result headless_result blessed).meta = b.meta
    ∧ (process_bookmark_flow b get_result headless_result blessed).hash = b.hash
    ∧ (process_bookmark_flow b get_result headless_result blessed).time = b.time
    ∧ (process_bookmark_flow b get_result headless_result blessed).shared = b.shared
    ∧ (process_bookmark_flow b get_result headless_result blessed).toread
        = b.toread := by
  cases get_result with
  | some r =>
      rw [process_bookmark_flow_get_eq]
      split <;> simp
  | none =>
      cases headless_result with
      | some r =>
          rw [process_bookmark_flow_headless_eq]
          split <;> simp
      | none =>
          rw [process_bookmark_flow_dead_eq]
          simp

/-- The tags list produced by `process_bookmark_flow` is the input list,
or the input list with exactly one marker tag appended. -/
theorem process_bookmark_flow_tags_cases (b : Bookmark)
    (get_result headless_result : Option FetchResult) (blessed : List String) :
    (process_bookmark_flow b get_result headless_result blessed).tags = b.tags
    ∨ (process_bookmark_flow b get_result headless_result blessed).tags
        = b.tags ++ ["data:redirected"]
    ∨ (process_bookmark_flow b get_result headless_result blessed).tags
        = b.tags ++ ["data:offline"] := by
  cases get_result with
  | some r =>
      rw [process_bookmark_flow_get_eq]
      split
      · exact Or.inr (Or.inl rfl)
      · exact Or.inl rfl
  | none =>
      cases headless_result with
      | some r =>
          rw [process_bookmark_flow_headless_eq]
          split
          · exact Or.inr (Or.inl rfl)
          · exact Or.inl rfl
      | none =>
          rw [process_bookmark_flow_dead_eq]
          exact Or.inr (Or.inr rfl)

/-- C1: `liveness_flow` is a strict two-step fallback.  When the Fetcher
oracle (`attempt_get_request`) yields a result, the outcome is live with
method `GET`, built from that result, and the Renderer is invoked zero
times.  When the Fetcher yields absent, the Renderer
(`attempt_headless_browser`) is invoked exactly once; if it yields a
result the outcome is live with method `HEADLESS` built from it, and if
both are absent the outcome is not live with method `NONE` and absent
`final_url`, `content` and `status_code`. -/
theorem C1_liveness_fallback (url : String) (r : FetchResult)
    (headless_result : Option FetchResult) :
    liveness_flow url (some r) headless_result =
      ({ url := url, is_live := true, status_code := r.status_code,
         method := Method.GET, final_url := some r.final_url,
         content := some r.content }, 0)
    ∧ (liveness_flow url none headless_result).2 = 1
    ∧ liveness_flow url none (some r) =
      ({ url := url, is_live := true, status_code := r.status_code,
         method := Method.HEADLESS, final_url := some r.final_url,
         content := some r.content }, 1)
    ∧ liveness_flow url none none =
      ({ url := url, is_live := false, status_code := none,
         method := Method.NONE, final_url := none, content := none }, 1) := by
  refine ⟨rfl, ?_, rfl, rfl⟩
  cases headless_result <;> rfl

/-- C4 counterexample: with no navigation response and empty page content,
`attempt_headless_browser` does not resolve to absent as the claim states —
it returns a present result (with absent status code). -/
theorem C4_counterexample :
    attempt_headless_browser
        (some { response := none, content := "", final_url := "http://e.example" })
      = some { final_url := "http://e.example", content := "", status_code := none }
    ∧ attempt_headless_browser
        (some { response := none, content := "", final_url := "http://e.example" })
      ≠ none := by
  exact ⟨rfl, by decide⟩

/-- C4 (amended): in `attempt_headless_browser`, when navigation yields no
response object: with non-empty page content the call returns a success
result with status code inferred as 200; with empty content it still
returns a result (not absent), carrying the page's final URL, the empty
content and an absent status code. -/
theorem C4_headless_no_response (st : PageState) (h : st.response = none) :
    (st.content ≠ "" →
      attempt_headless_browser (some st) =
        some { final_url := st.final_url, content := st.content,
               status_code := some 200 })
    ∧ (st.content = "" →
      attempt_headless_browser (some st) =
        some { final_url := st.final_url, content := "", status_code := none }) := by
  constructor <;> intro hc <;> simp [attempt_headless_browser, h, hc]

/-- C4 witness: the amended theorem applied to a concrete page state with
no response and non-empty content, and to one with no response and empty
content. -/
theorem C4_headless_no_response_witness :
    attempt_headless_browser
        (some { response := none, content := "<html>x</html>",
                final_url := "http://w.example" })
      = some { final_url := "http://w.example", content := "<html>x</html>",
               status_code := some 200 }
    ∧ attempt_headless_browser
        (some { response := none, content := "", final_url := "http://w.example" })
      = some { final_url := "http://w.example", content := "",
               status_code := none } :=
  ⟨(C4_headless_no_response
      { response := none, content := "<html>x</html>",
        final_url := "http://w.example" } rfl).1 (by decide),
   (C4_headless_no_response
      { response := none, content := "", final_url := "http://w.example" } rfl).2 rfl⟩

/-- C2: for a bookmark that fails both liveness checks,
`process_bookmark_flow` appends the `"data:offline"` marker, leaves
`extended` (and every other field) unchanged and performs no content step —
but, the linting call being commented out in the source, it does NOT apply
`lint_tags`: with blessed set `["python"]` the unblessed tag `"gossip"`
survives in the output, whereas applying `lint_tags` as the claim states
would have removed it (second conjunct). -/
theorem C2_offline_skips_linting :
    process_bookmark_flow (sample_bookmark "http://dead.example" ["gossip"])
        none none ["python"]
      = sample_bookmark "http://dead.example" ["gossip", "data:offline"]
    ∧ lint_tags ["gossip", "data:offline"] ["python"] = [] := by
  exact ⟨rfl, by decide⟩

/-- C3: for a live bookmark with empty `extended` and markup content
available from the liveness outcome, `process_bookmark_flow` returns the
bookmark completely unchanged — the summarization and tag-suggestion calls
are commented out in the source — although the helper functions
`_summarize_and_update_extended` and `_suggest_and_add_new_tags` would have
set `extended` to the summary and merged the suggested tags (second and
third conjuncts show the helpers' behaviour on the same bookmark). -/
theorem C3_live_no_enrichment :
    process_bookmark_flow (sample_bookmark "http://a.example" ["old"])
        (some { final_url := "http://a.example",
                content := "<html><body>Text</body></html>",
                status_code := some 200 })
        none []
      = sample_bookmark "http://a.example" ["old"]
    ∧ summarize_and_update_extended (sample_bookmark "http://a.example" ["old"])
        (some "Text") (fun _ => "A summary.")
      = { sample_bookmark "http://a.example" ["old"] with extended := "A summary." }
    ∧ suggest_and_add_new_tags (sample_bookmark "http://a.example" ["old"])
        (some "Text") (fun _ => ["new"])
      = { sample_bookmark "http://a.example" ["old"] with tags := ["new", "old"] } := by
  refine ⟨by decide, by decide, by decide⟩

/-- C5 counterexample: a duplicate-free input whose tags already contain
`"data:offline"`; after both liveness checks fail, the marker append (a
plain `list.append`, not a set write) introduces a duplicate. -/
theorem C5_counterexample :
    (sample_bookmark "http://dead.example" ["data:offline"]).tags.Nodup
    ∧ (process_bookmark_flow (sample_bookmark "http://dead.example" ["data:offline"])
          none none []).tags
        = ["data:offline", "data:offline"]
    ∧ ¬ (process_bookmark_flow
          (sample_bookmark "http://dead.example" ["data:offline"])
          none none []).tags.Nodup := by
  decide

/-- C5 (amended): for every input bookmark whose duplicate-free tags list
contains neither `"data:redirected"` nor `"data:offline"`, the bookmark
returned by `process_bookmark_flow` has a duplicate-free tags list; the
marker appends are plain list appends, so a marker already present in the
input may be duplicated. -/
theorem C5_no_duplicate_introduction (b : Bookmark)
    (get_result headless_result : Option FetchResult) (blessed : List String)
    (hnd : b.tags.Nodup) (hr : "data:redirected" ∉ b.tags)
    (ho : "data:offline" ∉ b.tags) :
    (process_bookmark_flow b get_result headless_result blessed).tags.Nodup := by
  rcases process_bookmark_flow_tags_cases b get_result headless_result blessed
    with h | h | h <;> rw [h]
  · exact hnd
  · simp [List.nodup_append, hnd, hr]
  · simp [List.nodup_append, hnd, ho]

/-- C5 witness: the amended theorem applied to a concrete duplicate-free
bookmark processed through the dead path. -/
theorem C5_no_duplicate_introduction_witness :
    (process_bookmark_flow (sample_bookmark "http://dead.example" ["python"])
        none none []).tags.Nodup :=
  C5_no_duplicate_introduction (sample_bookmark "http://dead.example" ["python"])
    none none [] (by decide) (by decide) (by decide)

/-- C6 counterexample: a liveness outcome carrying the (empty) final URL
`""`, different from the bookmark's `href`; the source's Python truthiness
test `if liveness_result.final_url and ...` skips the update, so `href` is
left unchanged and no redirect marker is appended, contrary to the claim
as stated. -/
theorem C6_counterexample :
    ((liveness_flow "http://a.example/x"
        (some { final_url := "", content := "c", status_code := some 200 })
        none).1).final_url
      = some ""
    ∧ ("" : String) ≠ "http://a.example/x"
    ∧ process_bookmark_flow (sample_bookmark "http://a.example/x" [])
        (some { final_url := "", content := "c", status_code := some 200 }) none []
      = sample_bookmark "http://a.example/x" [] := by
  decide

/-- C6 (amended): when the liveness outcome carries a NON-EMPTY `final_url`
different from the bookmark's `href`, `process_bookmark_flow` updates
`href` to it and appends the `"data:redirected"` marker; when `final_url`
is absent, empty, or equal to `href`, the `href` is left unchanged and no
redirect marker is added (its multiplicity in the tags is unchanged). -/
theorem C6_redirect_handling (b : Bookmark)
    (get_result headless_result : Option FetchResult) (blessed : List String) :
    (∀ fu, ((liveness_flow b.href get_result headless_result).1).final_url = some fu →
        fu ≠ "" → fu ≠ b.href →
        (process_bookmark_flow b get_result headless_result blessed).href = fu
        ∧ (process_bookmark_flow b get_result headless_result blessed).tags
            = b.tags ++ ["data:redirected"])
    ∧ ((((liveness_flow b.href get_result headless_result).1).final_url = none
        ∨ ((liveness_flow b.href get_result headless_result).1).final_url = some ""
        ∨ ((liveness_flow b.href get_result headless_result).1).final_url
            = some b.href) →
        (process_bookmark_flow b get_result headless_result blessed).href = b.href
        ∧ (process_bookmark_flow b get_result headless_result blessed).tags.count
              "data:redirected"
            = b.tags.count "data:redirected") := by
  have hoff : (["data:offline"] : List String).count "data:redirected" = 0 := by decide
  cases get_result with
  | some r =>
      constructor
      · intro fu hfu hne hdiff
        have h2 : some r.final_url = some fu := hfu
        cases h2
        rw [process_bookmark_flow_get_eq, if_pos ⟨hne, hdiff⟩]
        exact ⟨rfl, rfl⟩
      · rintro (h | h | h)
        · exact absurd (show some r.final_url = none from h) (by simp)
        · have h2 : some r.final_url = some "" := h
          have h3 : r.final_url = "" := Option.some.inj h2
          rw [process_bookmark_flow_get_eq, if_neg (by simp [h3])]
          exact ⟨rfl, rfl⟩
        · have h2 : some r.final_url = some b.href := h
          have h3 : r.final_url = b.href := Option.some.inj h2
          rw [process_bookmark_flow_get_eq, if_neg (by simp [h3])]
          exact ⟨rfl, rfl⟩
  | none =>
      cases headless_result with
      | some r =>
          constructor
          · intro fu hfu hne hdiff
            have h2 : some r.final_url = some fu := hfu
            cases h2
            rw [process_bookmark_flow_headless_eq, if_pos ⟨hne, hdiff⟩]
            exact ⟨rfl, rfl⟩
          · rintro (h | h | h)
            · exact absurd (show some r.final_url = none from h) (by simp)
            · have h3 : r.final_url = "" := Option.some.inj h
              rw [process_bookmark_flow_headless_eq, if_neg (by simp [h3])]
              exact ⟨rfl, rfl⟩
            · have h3 : r.final_url = b.href := Option.some.inj h
              rw [process_bookmark_flow_headless_eq, if_neg (by simp [h3])]
              exact ⟨rfl, rfl⟩
      | none =>
          constructor
          · intro fu hfu hne hdiff
            exact absurd (show (none : Option String) = some fu from hfu) (by simp)
          · intro h
            rw [process_bookmark_flow_dead_eq]
            exact ⟨rfl, by simp [List.count_append, hoff]⟩

/-- C6 witness: the amended theorem's redirect branch applied to the
spec's redirect scenario (`href = "http://a.example/x"`, resolved
`final_url = "http://a.example/y"`). -/
theorem C6_redirect_handling_witness :
    (process_bookmark_flow (sample_bookmark "http://a.example/x" [])
        (some { final_url := "http://a.example/y", content := "c",
                status_code := some 200 }) none []).href
      = "http://a.example/y"
    ∧ (process_bookmark_flow (sample_bookmark "http://a.example/x" [])
        (some { final_url := "http://a.example/y", content := "c",
                status_code := some 200 }) none []).tags
      = ["data:redirected"] :=
  (C6_redirect_handling (sample_bookmark "http://a.example/x" [])
      (some { final_url := "http://a.example/y", content := "c",
              status_code := some 200 }) none []).1
    "http://a.example/y" rfl (by decide) (by decide)

/-- The linting loop of `lint_tags` builds, onto its accumulator, exactly
the input tags that are members of the blessed set, in order. -/
theorem lint_tags_foldl_eq (blessed : List String) :
    ∀ tags acc : List String,
      tags.foldl
          (fun linted_tags tag =>
            if tag ∈ blessed then linted_tags ++ [tag] else linted_tags) acc
        = acc ++ tags.filter (fun t => decide (t ∈ blessed)) := by
  intro tags
  induction tags with
  | nil => intro acc; simp
  | cons t ts ih =>
      intro acc
      by_cases h : t ∈ blessed
      · simp [List.filter_cons, h, ih]
      · simp [List.filter_cons, h, ih]

/-- C7: with an empty blessed set `lint_tags` returns the input tags
unchanged (lint disabled); with a non-empty blessed set it returns exactly
the input tags that are members of the blessed set, so every returned tag
is blessed. -/
theorem C7_lint_tags (tags blessed : List String) :
    (blessed = [] → lint_tags tags blessed = tags)
    ∧ (blessed ≠ [] →
        lint_tags tags blessed = tags.filter (fun t => decide (t ∈ blessed))
        ∧ ∀ t ∈ lint_tags tags blessed, t ∈ blessed) := by
  constructor
  · intro h
    subst h
    rfl
  · intro h
    have he : blessed.isEmpty = false := by
      cases blessed with
      | nil => exact absurd rfl h
      | cons x xs => rfl
    have heq : lint_tags tags blessed
        = tags.filter (fun t => decide (t ∈ blessed)) := by
      simp [lint_tags, he, lint_tags_foldl_eq]
    refine ⟨heq, ?_⟩
    intro t ht
    rw [heq] at ht
    exact of_decide_eq_true (List.mem_filter.mp ht).2

/-- C7 witness: the theorem applied to a concrete tag list with both a
non-empty and an empty blessed set. -/
theorem C7_lint_tags_witness :
    lint_tags ["python", "gossip", "ai"] ["python", "ai", "prefect"]
      = ["python", "ai"]
    ∧ lint_tags ["python", "gossip"] [] = ["python", "gossip"] := by
  constructor
  · have h := ((C7_lint_tags ["python", "gossip", "ai"]
      ["python", "ai", "prefect"]).2 (by decide)).1
    rw [h]
    decide
  · exact (C7_lint_tags ["python", "gossip"] []).1 rfl

/-- C8: `extract_main_content` first removes the blocked elements
(`script`, `style`, `header`, `footer`, `nav`) and then returns the
stripped, space-joined text of the first `article` element if one exists,
else of the first `main` element, else of the `body`, else the empty
string.  On the fixture holding both an `article` and a `main` with
different text (and a `script`), it returns the article's text `"A B"`,
not the main's text `"M"`. -/
theorem C8_extract_precedence (document : List Node) :
    (∀ a, forest_find "article" (forest_decompose document) = some a →
        extract_main_content document = get_text a)
    ∧ (forest_find "article" (forest_decompose document) = none →
        ∀ m, forest_find "main" (forest_decompose document) = some m →
        extract_main_content document = get_text m)
    ∧ (forest_find "article" (forest_decompose document) = none →
        forest_find "main" (forest_decompose document) = none →
        ∀ bd, forest_find "body" (forest_decompose document) = some bd →
        extract_main_content document = get_text bd)
    ∧ (forest_find "article" (forest_decompose document) = none →
        forest_find "main" (forest_decompose document) = none →
        forest_find "body" (forest_decompose document) = none →
        extract_main_content document = "")
    ∧ extract_main_content sample_document = "A B"
    ∧ get_text (Node.elem "main" [Node.text "M"]) = "M" := by
  refine ⟨?_, ?_, ?_, ?_, by decide, by decide⟩
  · intro a ha
    simp [extract_main_content, ha]
  · intro h1 m hm
    simp [extract_main_content, h1, hm]
  · intro h1 h2 bd hb
    simp [extract_main_content, h1, h2, hb]
  · intro h1 h2 h3
    simp [extract_main_content, h1, h2, h3]

/-- C8 witness: the precedence theorem's `article` branch applied to the
fixture document. -/
theorem C8_extract_precedence_witness :
    extract_main_content sample_document
      = get_text (Node.elem "article"
          [Node.text " A ", Node.elem "p" [Node.text "B"]]) :=
  (C8_extract_precedence sample_document).1
    (Node.elem "article" [Node.text " A ", Node.elem "p" [Node.text "B"]]) rfl

/-- C9 counterexample: the fixture record carries the opaque metadata key
`"archived"`; the pipeline's saved output carries no key outside the nine
model fields, so the metadata is dropped, not preserved byte-for-byte. -/
theorem C9_counterexample :
    sample_record.extra = [("archived", "yes")]
    ∧ (process_record sample_record none none []).extra = []
    ∧ (process_record sample_record none none []).extra ≠ sample_record.extra := by
  decide

/-- C9 (amended): of the fields other than `href`, `extended` and `tags`,
the six declared model fields (`description`, `meta`, `hash`, `time`,
`shared`, `toread`) are preserved unchanged through load, enrichment and
save; opaque metadata keys outside the model are dropped by
`model_validate` (pydantic ignores extras) and never reach the saved
output, which contains only the nine model fields. -/
theorem C9_fixed_fields_preserved (rec : InputRecord)
    (get_result headless_result : Option FetchResult) (blessed : List String) :
    (process_record rec get_result headless_result blessed).description
        = rec.description
    ∧ (process_record rec get_result headless_result blessed).meta = rec.meta
    ∧ (process_record rec get_result headless_result blessed).hash = rec.hash
    ∧ (process_record rec get_result headless_result blessed).time = rec.time
    ∧ (process_record rec get_result headless_result blessed).shared = rec.shared
    ∧ (process_record rec get_result headless_result blessed).toread = rec.toread
    ∧ (process_record rec get_result headless_result blessed).extra = [] := by
  have h := process_bookmark_flow_frame (model_validate rec) get_result
    headless_result blessed
  exact ⟨h.1, h.2.2.1, h.2.2.2.1, h.2.2.2.2.1, h.2.2.2.2.2.1,
    h.2.2.2.2.2.2, rfl⟩

/-- Every character group produced by `ws_fields` contains only
non-whitespace characters. -/
theorem ws_fields_no_whitespace :
    ∀ cs : List Char, ∀ w ∈ ws_fields cs, ∀ c ∈ w, c.isWhitespace = false := by
  intro cs
  induction cs with
  | nil =>
      intro w hw
      simp [ws_fields] at hw
  | cons c cs ih =>
      intro w hw d hd
      rw [ws_fields] at hw
      by_cases hc : c.isWhitespace
      · rw [if_pos hc] at hw
        rcases List.mem_cons.mp hw with h | h
        · subst h
          exact absurd hd (List.not_mem_nil d)
        · exact ih w h d hd
      · rw [if_neg hc] at hw
        rcases hws : ws_fields cs with _ | ⟨w1, ws1⟩
        · rw [hws] at hw
          have hw2 : w = [c] := by simpa using hw
          subst hw2
          have : d = c := by simpa using hd
          subst this
          simpa using hc
        · rw [hws] at hw
          rcases List.mem_cons.mp hw with h | h
          · subst h
            rcases List.mem_cons.mp hd with h2 | h2
            · subst h2
              simpa using hc
            · exact ih w1 (by rw [hws]; exact List.mem_cons_self w1 ws1) d h2
          · exact ih w (by rw [hws]; exact List.mem_cons_of_mem w1 h) d hd

/-- C10: the `split_tags` validator maps an absent or `None` tags value to
the empty list, splits a single string on whitespace into the list of its
maximal non-whitespace runs (each returned tag is non-empty and contains
no whitespace), and passes a list through unchanged; being a total
function, it fails on neither shape. -/
theorem C10_split_tags (s : String) (l : List String) :
    split_tags none = []
    ∧ split_tags (some (TagsValue.str s)) = py_whitespace_split s
    ∧ (∀ t ∈ split_tags (some (TagsValue.str s)),
        t ≠ "" ∧ ∀ c ∈ t.data, c.isWhitespace = false)
    ∧ split_tags (some (TagsValue.strList l)) = l
    ∧ split_tags (some (TagsValue.str "tech programming"))
        = ["tech", "programming"] := by
  refine ⟨rfl, rfl, ?_, rfl, by decide⟩
  intro t ht
  simp only [split_tags, py_whitespace_split, List.mem_map, List.mem_filter] at ht
  obtain ⟨w, ⟨hw_mem, hw_ne⟩, rfl⟩ := ht
  constructor
  · intro hcontra
    have hdata : w = [] := by simpa using congrArg String.data hcontra
    rw [hdata] at hw_ne
    simp at hw_ne
  · intro c hc
    exact ws_fields_no_whitespace s.data w hw_mem c hc

/-- C10 witness: the validator theorem applied to a concrete string tags
value (with surrounding and repeated whitespace) and a concrete list tags
value, the membership hypothesis discharged at the tag `"a"`. -/
theorem C10_split_tags_witness :
    (("a" : String) ≠ "" ∧ ∀ c ∈ ("a" : String).data, c.isWhitespace = false)
    ∧ split_tags (some (TagsValue.strList ["x"])) = ["x"]
    ∧ split_tags none = [] := by
  have h := C10_split_tags " a  b " ["x"]
  exact ⟨h.2.2.1 "a" (by decide), h.2.2.2.1, h.1⟩

end BookmarkOrganiser
